import Mathlib

/-!
Verification of the comment-aware source-line counter (`count_lines.py`).

The core consists of two functions:

* `look_for_code_in_line(line)` — the Line Classifier: a single left-to-right
  scan over one line, tracking whether the scan is currently inside a
  `/* ... */` block comment, returning `(has_code, in_comment)`.
* `count_real_lines(file_path)` — the File Counter: iterates a file's lines,
  threads the block-comment state across lines and accumulates a count of
  "real" (non-blank, non-comment) lines; any exception while reading is
  caught and the accumulated count is returned.

Lines are embedded as `List Char`.  Python string primitives (`strip`,
`lstrip`, `rstrip("\n")`, `find`, `startswith`, slicing) are given direct
executable models below.  The classifier's `while` loop is modelled with an
explicit fuel parameter equal to the line length; the fuel is provably
sufficient because the scan index strictly increases on every iteration
(this is exactly claim C9, proved via the instrumented `lookFuel` variant
that reports fuel exhaustion).
-/

/-- Characters stripped by Python's `str.strip()` / `str.lstrip()`
(the ASCII whitespace set; source lines here contain no other
Unicode whitespace). -/
def pyIsSpace (c : Char) : Bool :=
  c = ' ' || c = '\t' || c = '\n' || c = '\r' ||
  c = Char.ofNat 11 || c = Char.ofNat 12

/-- Python `s.lstrip()`: drop leading whitespace. -/
def pyLStrip (l : List Char) : List Char :=
  l.dropWhile pyIsSpace

/-- Python `s.rstrip()` restricted to whitespace: drop trailing whitespace. -/
def pyRStrip (l : List Char) : List Char :=
  (l.reverse.dropWhile pyIsSpace).reverse

/-- Python `s.strip()`: drop leading and trailing whitespace. -/
def pyStrip (l : List Char) : List Char :=
  pyRStrip (pyLStrip l)

/-- Python `raw.rstrip("\n")`: drop trailing newline characters only. -/
def rstripNl (l : List Char) : List Char :=
  (l.reverse.dropWhile (fun c => c = '\n')).reverse

/-- Index of the first occurrence of `pat` in `s` (from position 0),
or `none`.  Helper for `pyFind`. -/
def findSub (pat : List Char) : List Char → Option Nat
  | [] => if pat.isPrefixOf ([] : List Char) then some 0 else none
  | c :: t =>
    if pat.isPrefixOf (c :: t) then some 0
    else (findSub pat t).map (· + 1)

/-- Python `s.find(pat, start)`: absolute index of the first occurrence of
`pat` in `s` at or after `start`, `none` standing for Python's `-1`. -/
def pyFind (s pat : List Char) (start : Nat) : Option Nat :=
  (findSub pat (s.drop start)).map (· + start)

/-- Convert a Lean string literal to the `List Char` embedding of a line. -/
def str2L (s : String) : List Char := s.data

/-- The `while idx < len(line)` loop of `look_for_code_in_line`, with an
explicit fuel bounding the number of loop iterations.  State: scan index
`idx` and flag `in_comment`.  Loop body, exactly as in the source:

* in a comment: find `"*/"` from `idx`; if absent return `(False, in_comment)`,
  else set `idx` past it and clear `in_comment`;
* outside a comment: find `"/*"` from `idx`; if found with non-blank text
  strictly between `idx` and it, return `(True, in_comment)`, else move `idx`
  past it and set `in_comment`; if absent, let `after` be the stripped
  remainder `line[idx:]`: if `after` is non-empty and is neither the lone
  backslash `"\\"` nor the lone `"//"`, return `(True, in_comment)`,
  otherwise `idx += 1`.

At fuel 0 the loop-exit value `(false, in_comment)` is returned; the fuel
used below (`line.length`) is proved sufficient, so this case is only ever
reached with `idx ≥ line.length`, where it coincides with the source's
loop exit. -/
def lookLoop (line : List Char) : Nat → Nat → Bool → Bool × Bool
  | 0, _, in_c => (false, in_c)
  | fuel + 1, idx, in_c =>
    if idx < line.length then
      if in_c then
        match pyFind line ['*', '/'] idx with
        | none => (false, in_c)
        | some p => lookLoop line fuel (p + 2) false
      else
        match pyFind line ['/', '*'] idx with
        | some p =>
          if pyStrip ((line.take p).drop idx) ≠ [] then (true, in_c)
          else lookLoop line fuel (p + 2) true
        | none =>
          let after := pyStrip (line.drop idx)
          if after ≠ [] ∧ after ≠ ['\\'] ∧ after ≠ ['/', '/'] then (true, in_c)
          else lookLoop line fuel (idx + 1) in_c
    else (false, in_c)

/-- Model of `look_for_code_in_line(line)` from the source: `idx = 0`,
`in_comment = True` (the initial flag is hard-coded in the source, the
function takes no state argument). -/
def look_for_code_in_line (line : List Char) : Bool × Bool :=
  lookLoop line line.length 0 true

/-- Instrumented variant of `lookLoop` that returns `none` when the fuel is
exhausted while the loop guard still holds, used to prove that
`line.length` iterations always suffice. -/
def lookFuel (line : List Char) : Nat → Nat → Bool → Option (Bool × Bool)
  | 0, idx, in_c =>
    if idx < line.length then none else some (false, in_c)
  | fuel + 1, idx, in_c =>
    if idx < line.length then
      if in_c then
        match pyFind line ['*', '/'] idx with
        | none => some (false, in_c)
        | some p => lookFuel line fuel (p + 2) false
      else
        match pyFind line ['/', '*'] idx with
        | some p =>
          if pyStrip ((line.take p).drop idx) ≠ [] then some (true, in_c)
          else lookFuel line fuel (p + 2) true
        | none =>
          let after := pyStrip (line.drop idx)
          if after ≠ [] ∧ after ≠ ['\\'] ∧ after ≠ ['/', '/'] then
            some (true, in_c)
          else lookFuel line fuel (idx + 1) in_c
    else some (false, in_c)

/-- One iteration of the `for raw in f` loop body of `count_real_lines`,
threading the state `(real, in_block_comment)`:

* `line = raw.rstrip("\n")`; if `line.strip()` is empty, skip;
* `stripped = line.lstrip()`; if it starts with `"//"`, skip;
* if it starts with `"/*"`, classify `stripped`, update the block-comment
  flag, count the line if code was found;
* else if inside a block comment, same classification step;
* else count the line unconditionally. -/
def processLine (st : Nat × Bool) (raw : List Char) : Nat × Bool :=
  let line := rstripNl raw
  if pyStrip line = [] then st
  else
    let stripped := pyLStrip line
    if ['/', '/'].isPrefixOf stripped then st
    else if ['/', '*'].isPrefixOf stripped then
      let r := look_for_code_in_line stripped
      ((if r.1 then st.1 + 1 else st.1), r.2)
    else if st.2 then
      let r := look_for_code_in_line stripped
      ((if r.1 then st.1 + 1 else st.1), r.2)
    else (st.1 + 1, st.2)

/-- The File Counter's loop over a sequence of lines from an arbitrary
starting state: a left fold of `processLine`. -/
def runLines (st : Nat × Bool) (lines : List (List Char)) : Nat × Bool :=
  lines.foldl processLine st

/-- Model of `count_real_lines` on a successfully read sequence of lines:
`in_block_comment = False`, `real = 0`, fold the per-line step, return the
count. -/
def count_real_lines (lines : List (List Char)) : Nat :=
  (runLines (0, false) lines).1

/-- A read event: either a line delivered by the file iterator, or an I/O
error raised at that point (an error as first event models a failure to
open the file). -/
abbrev ReadEvent := Except Unit (List Char)

/-- Model of `count_real_lines` over a stream of read events, capturing the
`try ... except Exception: pass` in the source: lines are processed until
the first error; the accumulated count at that point (not zero) is
returned, and no exception escapes. -/
def countRead : Nat × Bool → List ReadEvent → Nat
  | st, [] => st.1
  | st, Except.error _ :: _ => st.1
  | st, Except.ok raw :: rest => countRead (processLine st raw) rest

/-- Model of `count_real_lines(file_path)` where reading the file produces
the given event stream. -/
def count_real_lines_io (events : List ReadEvent) : Nat :=
  countRead (0, false) events

/-- The lines successfully delivered before the first error. -/
def okPrefix (events : List ReadEvent) : List (List Char) :=
  (events.takeWhile (fun e => e.toOption.isSome)).filterMap
    (fun e => e.toOption)

/-! Helper lemmas. -/

/-- Finding a pattern from `start` yields a position at or after `start`. -/
theorem pyFind_ge {s pat : List Char} {start p : Nat}
    (h : pyFind s pat start = some p) : start ≤ p := by
  unfold pyFind at h
  cases hf : findSub pat (s.drop start) with
  | none => rw [hf] at h; simp at h
  | some r => rw [hf] at h; simp at h; omega

/-- Fuel equal to the unscanned length is enough: the instrumented loop
never reports exhaustion and agrees with the total loop, because the scan
index strictly increases on every iteration. -/
theorem lookFuel_adequate (line : List Char) :
    ∀ fuel idx in_c, line.length ≤ idx + fuel →
      lookFuel line fuel idx in_c = some (lookLoop line fuel idx in_c) := by
  intro fuel
  induction fuel with
  | zero =>
    intro idx in_c h
    have hge : ¬ idx < line.length := by omega
    simp [lookFuel, lookLoop, hge]
  | succ n ih =>
    intro idx in_c h
    by_cases hlt : idx < line.length
    · cases in_c with
      | true =>
        simp only [lookFuel, lookLoop, if_pos hlt]
        cases hp : pyFind line ['*', '/'] idx with
        | none => rfl
        | some p =>
          have := pyFind_ge hp
          exact ih (p + 2) false (by omega)
      | false =>
        simp only [lookFuel, lookLoop, if_pos hlt]
        cases hp : pyFind line ['/', '*'] idx with
        | some p =>
          have := pyFind_ge hp
          by_cases hs : pyStrip ((line.take p).drop idx) ≠ []
          · simp [hs]
          · simp only [if_neg hs]
            exact ih (p + 2) true (by omega)
        | none =>
          by_cases ha : pyStrip (line.drop idx) ≠ [] ∧
              pyStrip (line.drop idx) ≠ ['\\'] ∧
              pyStrip (line.drop idx) ≠ ['/', '/']
          · simp [ha]
          · simp only [if_neg ha]
            exact ih (idx + 1) false (by omega)
    · simp [lookFuel, lookLoop, hlt]

/-- Shape of the loop's result: either it is exactly `(true, false)` (code
found — both `(True, _)` returns sit in the not-in-comment branch) or no
code is reported. -/
theorem lookLoop_shape (line : List Char) :
    ∀ fuel idx in_c, lookLoop line fuel idx in_c = (true, false) ∨
      (lookLoop line fuel idx in_c).1 = false := by
  intro fuel
  induction fuel with
  | zero => intro idx in_c; right; simp [lookLoop]
  | succ n ih =>
    intro idx in_c
    by_cases hlt : idx < line.length
    · cases in_c with
      | true =>
        simp only [lookLoop, if_pos hlt]
        cases hp : pyFind line ['*', '/'] idx with
        | none => right; simp
        | some p => exact ih (p + 2) false
      | false =>
        simp only [lookLoop, if_pos hlt]
        cases hp : pyFind line ['/', '*'] idx with
        | some p =>
          by_cases hs : pyStrip ((line.take p).drop idx) ≠ []
          · left; simp [hs]
          · simpa [hs] using ih (p + 2) true
        | none =>
          by_cases ha : pyStrip (line.drop idx) ≠ [] ∧
              pyStrip (line.drop idx) ≠ ['\\'] ∧
              pyStrip (line.drop idx) ≠ ['/', '/']
          · left; simp [ha]
          · simpa [ha] using ih (idx + 1) false
    · right; simp [lookLoop, hlt]

/-- C1 (amended part): the classifier's local scan state is hard-coded to
`True` ("inside comment") — it takes no caller state — so on any line with
no `*/` close marker the whole line is treated as comment remainder and the
result is `(hasCode = false, stillInsideBlockComment = true)`; in
particular `"test"` yields `(false, true)`, exactly as the repository's own
test fixture asserts. -/
theorem c1_thm :
    (∀ line : List Char, pyFind line ['*', '/'] 0 = none →
      look_for_code_in_line line = (false, true)) ∧
    look_for_code_in_line (str2L "test") = (false, true) := by
  constructor
  · intro line h
    unfold look_for_code_in_line
    cases hlen : line.length with
    | zero => simp [lookLoop]
    | succ n => simp [lookLoop, hlen, h]
  · decide

/-- C1 witness: the general part of `c1_thm` applied at the concrete line
`"test"`, whose hypothesis (no close marker present) holds by evaluation. -/
theorem c1_witness :
    pyFind (str2L "test") ['*', '/'] 0 = none ∧
    look_for_code_in_line (str2L "test") = (false, true) :=
  ⟨by decide, c1_thm.1 (str2L "test") (by decide)⟩

/-- C1 counterexample: the claim asserts that classifying `"test"` with
initial state "not inside comment" returns `(true, false)`; the source's
classifier admits no caller-supplied state (its flag starts `True`
unconditionally) and returns `(false, true)` on `"test"`. -/
theorem c1_counterexample :
    look_for_code_in_line (str2L "test") ≠ (true, false) := by decide

/-- C2 (code evaluated at the failing input): classifying `"*/ //"` returns
`(true, false)`, not the `(false, false)` the claim states.  After the
close marker the remainder strips to the excluded `"//"`, but the scan then
advances by only one character (`idx += 1`, not to end of line), and one
position later the remainder strips to `"/"`, which is not in the exclusion
list and is reported as code. -/
theorem c2_code_eval :
    look_for_code_in_line (str2L "*/ //") = (true, false) := by decide

/-- C4: multiple open/close marker pairs on one line resolve left-to-right
with no code detection leaking across an intervening comment:
`"*/ test /* */ /* */"` (from the inside-comment start) has code, ends
outside a comment; and `"*//* test *//* */ /* */"`, where every non-blank
segment lies inside some comment, reports no code. -/
theorem c4_thm :
    look_for_code_in_line (str2L "*/ test /* */ /* */") = (true, false) ∧
    look_for_code_in_line (str2L "*//* test *//* */ /* */") = (false, false) := by
  decide

/-- C9: fuel `line.length` is exact — the instrumented loop, which reports
`none` on fuel exhaustion, returns `some` of the classifier's result when
run with fuel equal to the line length: the scan index strictly increases
every iteration, so classification of every finite line terminates after at
most `line.length` iterations. -/
theorem c9_thm (line : List Char) :
    lookFuel line line.length 0 true = some (look_for_code_in_line line) :=
  lookFuel_adequate line line.length 0 true (by omega)

/-- C10: whenever the classifier reports `hasCode = true`, the returned
block-comment state is `false`; the pair `(true, true)` is never returned. -/
theorem c10_thm (line : List Char)
    (h : (look_for_code_in_line line).1 = true) :
    (look_for_code_in_line line).2 = false := by
  rcases lookLoop_shape line line.length 0 true with he | hf
  · unfold look_for_code_in_line
    rw [he]
  · exact absurd h (by simp [look_for_code_in_line, hf])

/-- C10 witness: `"*/ test"` is reported as code, and `c10_thm` yields that
its returned state is `false`. -/
theorem c10_witness :
    (look_for_code_in_line (str2L "*/ test")).1 = true ∧
    (look_for_code_in_line (str2L "*/ test")).2 = false :=
  ⟨by decide, c10_thm (str2L "*/ test") (by decide)⟩

/-- Dropping trailing whitespace from a list headed by a non-whitespace
character leaves it non-empty. -/
theorem pyRStrip_cons_ne_nil {c : Char} (t : List Char)
    (hc : pyIsSpace c = false) : pyRStrip (c :: t) ≠ [] := by
  intro h
  have h2 : (c :: t).reverse.dropWhile pyIsSpace = [] := by
    simpa [pyRStrip, List.reverse_eq_nil_iff] using h
  have h3 := List.dropWhile_eq_nil_iff.mp h2 c (by simp)
  simp [hc] at h3

/-- Processing events equals processing exactly the lines delivered before
the first error, from the same starting state. -/
theorem countRead_eq_okPrefix :
    ∀ (events : List ReadEvent) (st : Nat × Bool),
      countRead st events = (runLines st (okPrefix events)).1 := by
  intro events
  induction events with
  | nil => intro st; simp [countRead, okPrefix, runLines]
  | cons e rest ih =>
    intro st
    cases e with
    | error u =>
      simp [countRead, okPrefix, runLines, List.takeWhile, Except.toOption]
    | ok raw =>
      have := ih (processLine st raw)
      simp only [countRead, okPrefix, List.takeWhile, Except.toOption,
        Option.isSome_some, List.filterMap_cons_some, runLines,
        List.foldl_cons] at *
      exact this

/-- C3 (amended): no exception escapes `count_real_lines` (the model is a
total function); an I/O error before any line is read yields 0, and an
error partway through yields the count of the lines processed before the
error — not necessarily zero. -/
theorem c3_thm :
    (∀ (e : Unit) (rest : List ReadEvent),
      count_real_lines_io (Except.error e :: rest) = 0) ∧
    (∀ events : List ReadEvent,
      count_real_lines_io events = count_real_lines (okPrefix events)) := by
  refine ⟨fun e rest => rfl, fun events => ?_⟩
  exact countRead_eq_okPrefix events (0, false)

/-- C3 counterexample: a file whose first line `"int x;"` is read
successfully and whose second read raises an I/O error yields a count of 1,
not the zero the claim states for an error partway through iteration. -/
theorem c3_counterexample :
    count_real_lines_io [Except.ok (str2L "int x;"), Except.error ()] ≠ 0 := by
  decide

/-- C5: the File Counter is a left fold of `processLine` threading
`(count, insideBlockComment)`: processing a prefix from the initial state
and then the suffix from the resulting state gives the same state — and
hence the same count — as processing the whole sequence at once. -/
theorem c5_thm (pre suf : List (List Char)) :
    runLines (runLines (0, false) pre) suf = runLines (0, false) (pre ++ suf) ∧
    count_real_lines (pre ++ suf) = (runLines (runLines (0, false) pre) suf).1 := by
  constructor
  · simp [runLines, List.foldl_append]
  · simp [count_real_lines, runLines, List.foldl_append]

/-- C6: a line that starts (after leading-whitespace trim) with `//` is
skipped: the count and the block-comment state are both left unchanged,
whatever the prior state was. -/
theorem c6_thm (st : Nat × Bool) (raw : List Char)
    (h : ['/', '/'].isPrefixOf (pyLStrip (rstripNl raw)) = true) :
    processLine st raw = st := by
  have hne : pyStrip (rstripNl raw) ≠ [] := by
    obtain ⟨t, ht⟩ := List.isPrefixOf_iff_prefix.mp h
    rw [pyStrip, ← ht]
    exact pyRStrip_cons_ne_nil ('/' :: t) (by decide)
  simp [processLine, hne, h]

/-- C6 witness: the line `"  // hi"` leaves the state `(3, b)` unchanged
for both block-comment states `b`. -/
theorem c6_witness :
    processLine (3, true) (str2L "  // hi") = (3, true) ∧
    processLine (3, false) (str2L "  // hi") = (3, false) :=
  ⟨c6_thm (3, true) (str2L "  // hi") (by decide),
   c6_thm (3, false) (str2L "  // hi") (by decide)⟩

/-- C7: a line that is empty after trimming whitespace contributes 0 to the
count and leaves the block-comment state exactly as it was. -/
theorem c7_thm (st : Nat × Bool) (raw : List Char)
    (h : pyStrip (rstripNl raw) = []) : processLine st raw = st := by
  simp [processLine, h]

/-- C7 witness: the whitespace-only line `"   \t "` leaves the state
`(5, b)` unchanged for both block-comment states `b`. -/
theorem c7_witness :
    processLine (5, true) (str2L "   \t ") = (5, true) ∧
    processLine (5, false) (str2L "   \t ") = (5, false) :=
  ⟨c7_thm (5, true) (str2L "   \t ") (by decide),
   c7_thm (5, false) (str2L "   \t ") (by decide)⟩

/-- Each line increments the count by at most one. -/
theorem processLine_fst_le (st : Nat × Bool) (raw : List Char) :
    (processLine st raw).1 ≤ st.1 + 1 := by
  by_cases h1 : pyStrip (rstripNl raw) = []
  · simp [processLine, h1]
  · by_cases h2 : ['/', '/'].isPrefixOf (pyLStrip (rstripNl raw))
    · simp [processLine, h1, h2]
    · by_cases h3 : ['/', '*'].isPrefixOf (pyLStrip (rstripNl raw))
      · cases hr : (look_for_code_in_line (pyLStrip (rstripNl raw))).1 <;>
          simp [processLine, h1, h2, h3, hr]
      · by_cases h4 : st.2
        · cases hr : (look_for_code_in_line (pyLStrip (rstripNl raw))).1 <;>
            simp [processLine, h1, h2, h3, h4, hr]
        · simp [processLine, h1, h2, h3, h4]

/-- The fold's count grows by at most the number of lines processed. -/
theorem runLines_fst_le (lines : List (List Char)) :
    ∀ st : Nat × Bool, (runLines st lines).1 ≤ st.1 + lines.length := by
  induction lines with
  | nil => intro st; simp [runLines]
  | cons l ls ih =>
    intro st
    have h1 := processLine_fst_le st l
    have h2 := ih (processLine st l)
    simp only [runLines, List.foldl_cons, List.length_cons] at *
    omega

/-- C8: the result of `count_real_lines` is a natural number (hence
non-negative) bounded by the number of input lines: the accumulator starts
at 0 and grows by at most one per line. -/
theorem c8_thm (lines : List (List Char)) :
    count_real_lines lines ≤ lines.length := by
  have := runLines_fst_le lines (0, false)
  simpa [count_real_lines] using this
